import Mathlib

/-!
Shallow embedding of `CpuCalcNonbondedForceKernel` from
`src/platforms/cpu/src/CpuKernels.cpp` (OpenMM CPU platform).

Real numbers (`double` / `float` in C++) are modelled by `ℚ`; the
narrowing `(float)` cast is an external numeric concern and is modelled
by an environment-supplied reduction function `toFloat : ℚ → ℚ`
(instantiated with the identity for concrete evaluations).  External
collaborators that live in this repository but outside the translated
file (`NonbondedForceImpl::calcEwaldParameters`, `calcPMEParameters`,
`calcDispersionCorrection`, and `CpuNeighborList::computeNeighborList`)
are gathered in an `Env` structure; theorems quantify over the
environment wherever the source merely forwards to these functions.
-/

namespace CpuNonbonded

/-- The nonbonded method tag, `CalcNonbondedForceKernel::NonbondedMethod`. -/
inductive NonbondedMethod where
  | NoCutoff
  | CutoffNonPeriodic
  | CutoffPeriodic
  | Ewald
  | PME
  deriving DecidableEq, Repr, Inhabited

/-- Whether a method uses periodic boundary conditions (cutoff-periodic, Ewald or PME);
in `execute` this is the value of `periodic || ewald || pme`. -/
def NonbondedMethod.isPeriodic : NonbondedMethod → Bool
  | .CutoffPeriodic => true
  | .Ewald => true
  | .PME => true
  | _ => false

/-- Per-particle parameters as returned by `NonbondedForce::getParticleParameters`. -/
structure ParticleParams where
  charge : ℚ
  radius : ℚ
  depth : ℚ
  deriving DecidableEq, Repr, Inhabited

/-- Per-exception parameters as returned by `NonbondedForce::getExceptionParameters`. -/
structure ExceptionParams where
  particle1 : Nat
  particle2 : Nat
  chargeProd : ℚ
  sigma : ℚ
  epsilon : ℚ
  deriving DecidableEq, Repr, Inhabited

/-- The force-field configuration object (`NonbondedForce`) as seen through the
getters used by `CpuKernels.cpp`. -/
structure NonbondedForce where
  particles : List ParticleParams
  exceptions : List ExceptionParams
  nonbondedMethod : NonbondedMethod
  cutoffDistance : ℚ
  useSwitchingFunction : Bool
  switchingDistance : ℚ
  reactionFieldDielectric : ℚ
  useDispersionCorrection : Bool
  deriving DecidableEq, Repr, Inhabited

/-- `force.getNumParticles()`. -/
def NonbondedForce.numParticles (force : NonbondedForce) : Nat :=
  force.particles.length

/-- The `System` object; `CpuKernels.cpp` only forwards it to the external
`NonbondedForceImpl` derivation functions, so only its particle masses appear. -/
structure System where
  masses : List ℚ
  deriving DecidableEq, Repr, Inhabited

/-- The slice of `ContextImpl` data used by the kernel: the host-owned
double-precision position and force buffers and the periodic box size. -/
structure Context where
  positions : List (ℚ × ℚ × ℚ)
  forces : List (ℚ × ℚ × ℚ)
  boxSize : ℚ × ℚ × ℚ
  deriving DecidableEq, Repr, Inhabited

/-- External collaborators of the translated file: the `NonbondedForceImpl`
parameter-derivation functions, the neighbor-list builder, and the
`double → float` narrowing cast. -/
structure Env where
  calcEwaldParameters : System → NonbondedForce → ℚ × Int × Int × Int
  calcPMEParameters : System → NonbondedForce → ℚ × Int × Int × Int
  dispersionTail : System → NonbondedForce → ℚ
  computeNeighborList :
    Nat → List ℚ → List (Finset Nat) → (ℚ × ℚ × ℚ) → Bool → ℚ → List (Nat × Nat)
  toFloat : ℚ → ℚ

/-- Modelled from the spec: `NonbondedForceImpl::calcDispersionCorrection` is not
under `src/` (only its caller is).  Per the spec it computes "the analytic
long-range Lennard-Jones tail correction as a function of all particle LJ
parameters and the (implied) system density; zero if disabled or method is
non-periodic" — so it returns zero for a non-periodic method and otherwise the
(implementation-defined) analytic tail coefficient supplied by the environment. -/
def calcDispersionCorrection (env : Env) (system : System) (force : NonbondedForce) : ℚ :=
  if force.nonbondedMethod.isPeriodic then env.dispersionTail system force else 0

/-- The kernel state: the data members of `CpuCalcNonbondedForceKernel` written
by the translated file. -/
structure KernelState where
  numParticles : Nat
  exclusions : List (Finset Nat)
  num14 : Nat
  posq : List ℚ
  nonbondedMethod : NonbondedMethod
  nonbondedCutoff : ℚ
  useSwitchingFunction : Bool
  switchingDistance : ℚ
  ewaldAlpha : ℚ
  kmax : Int × Int × Int
  gridSize : Int × Int × Int
  rfDielectric : ℚ
  dispersionCoefficient : ℚ
  neighborList : List (Nat × Nat)

/-- A freshly constructed kernel (all `std::vector` members empty, scalars
default-initialized; scalar members of the C++ object are in fact
indeterminate before `initialize`, zero is used as their model). -/
def KernelState.fresh : KernelState where
  numParticles := 0
  exclusions := []
  num14 := 0
  posq := []
  nonbondedMethod := .NoCutoff
  nonbondedCutoff := 0
  useSwitchingFunction := false
  switchingDistance := 0
  ewaldAlpha := 0
  kmax := (0, 0, 0)
  gridSize := (0, 0, 0)
  rfDielectric := 0
  dispersionCoefficient := 0
  neighborList := []

/-- One exception's effect on the exclusion table:
`exclusions[particle1].insert(particle2)` (a `std::set` insert; writing past
the vector's size is undefined behaviour in C++, modelled as a no-op by
`List.set`). -/
def insertExclusion (excl : List (Finset Nat)) (p q : Nat) : List (Finset Nat) :=
  excl.set p (insert q (excl.getD p ∅))

/-- One iteration of the exclusion-building loop of `initialize` (lines 74–76):
`exclusions[particle1].insert(particle2); exclusions[particle2].insert(particle1)`. -/
def exclStep (acc : List (Finset Nat)) (e : ExceptionParams) : List (Finset Nat) :=
  insertExclusion (insertExclusion acc e.particle1 e.particle2) e.particle2 e.particle1

/-- The exclusion-building loop of `initialize` (lines 71–79): for each
exception, insert each endpoint into the other's exclusion set, starting from
`exclusions.resize(numParticles)` (a vector of `numParticles` empty sets). -/
def buildExclusions (n : Nat) (excs : List ExceptionParams) : List (Finset Nat) :=
  excs.foldl exclStep (List.replicate n ∅)

/-- The `nb14s` list built by `initialize`: indices of exceptions with
`chargeProd != 0.0 || epsilon != 0.0`. -/
def nb14Indices (excs : List ExceptionParams) : List Nat :=
  (List.range excs.length).filter
    (fun i => (excs.getD i default).chargeProd ≠ 0 ∨ (excs.getD i default).epsilon ≠ 0)

/-- `posq.resize(4*numParticles, 0)`: keep the existing prefix, pad with zeros. -/
def resizePosq (posq : List ℚ) (n : Nat) : List ℚ :=
  posq.take (4 * n) ++ List.replicate (4 * n - posq.length) (0 : ℚ)

/-- The charge-recording loop of `initialize` (lines 88–95):
`posq[4*i+3] = (float) charge`. -/
def setCharges (env : Env) (particles : List ParticleParams) (n : Nat) (posq : List ℚ) : List ℚ :=
  (List.range n).foldl
    (fun pq i => pq.set (4 * i + 3) (env.toFloat (particles.getD i default).charge)) posq

/-- `CpuCalcNonbondedForceKernel::initialize` (lines 64–130). -/
def initializeKernel (env : Env) (st : KernelState) (system : System) (force : NonbondedForce) :
    KernelState :=
  let numParticles := force.numParticles
  let exclusions := buildExclusions numParticles force.exceptions
  let num14 := (nb14Indices force.exceptions).length
  let posq := setCharges env force.particles numParticles (resizePosq st.posq numParticles)
  let method := force.nonbondedMethod
  let useSwitch := if method = .NoCutoff then false else force.useSwitchingFunction
  let switchDist := if method = .NoCutoff then st.switchingDistance else force.switchingDistance
  let ewaldRes := env.calcEwaldParameters system force
  let pmeRes := env.calcPMEParameters system force
  { st with
    numParticles := numParticles
    exclusions := exclusions
    num14 := num14
    posq := posq
    nonbondedMethod := method
    nonbondedCutoff := force.cutoffDistance
    useSwitchingFunction := useSwitch
    switchingDistance := switchDist
    ewaldAlpha :=
      if method = .Ewald then ewaldRes.1
      else if method = .PME then pmeRes.1
      else st.ewaldAlpha
    kmax := if method = .Ewald then ewaldRes.2 else st.kmax
    gridSize := if method = .PME then pmeRes.2 else st.gridSize
    rfDielectric := force.reactionFieldDielectric
    dispersionCoefficient :=
      if force.useDispersionCorrection then calcDispersionCorrection env system force
      else 0 }

/-- The minimum-image wrap applied per axis in `execute`'s periodic branch
(line 149–150): `x' = x - floor(x/L + 0.5) * L`. -/
def wrapMinImage (x L : ℚ) : ℚ :=
  x - (⌊x / L + 1 / 2⌋ : ℤ) * L

/-- The common shape of the two position-conversion loops of `execute`: for
each particle index `i` below `n`, write the converted coordinate triple
`f i` into the slots `4*i`, `4*i+1`, `4*i+2` of the packed buffer. -/
def positionLoop (f : Nat → ℚ × ℚ × ℚ) (n : Nat) (posq : List ℚ) : List ℚ :=
  (List.range n).foldl
    (fun pq i => ((pq.set (4 * i) (f i).1).set (4 * i + 1) (f i).2.1).set (4 * i + 2) (f i).2.2)
    posq

/-- The position-conversion loops of `execute` (lines 145–157): when the
method is `CutoffPeriodic` each coordinate is wrapped to the minimum image and
narrowed to float; otherwise the coordinates are narrowed unchanged.  Only the
components `4*i+j`, `j < 3`, are written; the charge slot `4*i+3` is untouched. -/
def convertPositions (env : Env) (n : Nat) (method : NonbondedMethod)
    (posData : List (ℚ × ℚ × ℚ)) (boxSize : ℚ × ℚ × ℚ) (posq : List ℚ) : List ℚ :=
  if method = .CutoffPeriodic then
    positionLoop
      (fun i =>
        let p := posData.getD i default
        (env.toFloat (wrapMinImage p.1 boxSize.1), env.toFloat (wrapMinImage p.2.1 boxSize.2.1),
          env.toFloat (wrapMinImage p.2.2 boxSize.2.2)))
      n posq
  else
    positionLoop
      (fun i =>
        let p := posData.getD i default
        (env.toFloat p.1, env.toFloat p.2.1, env.toFloat p.2.2))
      n posq

/-- The result of one `execute` call: the returned energy, the kernel state
after the call, and the host force buffer after the call. -/
structure ExecResult where
  energy : ℚ
  kernel : KernelState
  forces : List (ℚ × ℚ × ℚ)

/-- `CpuCalcNonbondedForceKernel::execute` (lines 132–188).  All force and
energy evaluation in the source is commented out: the live code converts the
positions to single precision (wrapping only when the method is
`CutoffPeriodic`), rebuilds the neighbor list, and returns `0.0`.  It never
throws and never touches the force buffer. -/
def execute (env : Env) (st : KernelState) (context : Context)
    (_includeForces _includeEnergy _includeDirect _includeReciprocal : Bool) : ExecResult :=
  let boxSize := context.boxSize
  let floatBoxSize := (env.toFloat boxSize.1, env.toFloat boxSize.2.1, env.toFloat boxSize.2.2)
  let posq :=
    convertPositions env st.numParticles st.nonbondedMethod context.positions boxSize st.posq
  let nl :=
    env.computeNeighborList st.numParticles posq st.exclusions floatBoxSize
      st.nonbondedMethod.isPeriodic st.nonbondedCutoff
  { energy := 0
    kernel := { st with posq := posq, neighborList := nl }
    forces := context.forces }

/-- `CpuCalcNonbondedForceKernel::copyParametersToContext` (lines 190–229).
The entire body is commented out in the source: the call is a no-op and cannot
fail. -/
def copyParametersToContext (st : KernelState) (_context : Context)
    (_force : NonbondedForce) : KernelState :=
  st

/-- Per-axis minimum-image reduction of a coordinate difference, used by the
spec-modelled neighbor search. -/
def minImageDelta (usePeriodic : Bool) (d L : ℚ) : ℚ :=
  if usePeriodic then d - (⌊d / L + 1 / 2⌋ : ℤ) * L else d

/-- Squared (minimum-image) distance between particles `i` and `j`, read from
the packed `posq` buffer. -/
def pairDistSq (posq : List ℚ) (boxSize : ℚ × ℚ × ℚ) (usePeriodic : Bool) (i j : Nat) : ℚ :=
  let dx := minImageDelta usePeriodic (posq.getD (4 * j) 0 - posq.getD (4 * i) 0) boxSize.1
  let dy := minImageDelta usePeriodic (posq.getD (4 * j + 1) 0 - posq.getD (4 * i + 1) 0) boxSize.2.1
  let dz := minImageDelta usePeriodic (posq.getD (4 * j + 2) 0 - posq.getD (4 * i + 2) 0) boxSize.2.2
  dx * dx + dy * dy + dz * dz

/-- Modelled from the spec: `CpuNeighborList::computeNeighborList` is not under
`src/` (only its call site is).  Spec §4.3: the candidate pairs (i,j), i<j,
whose minimum-image distance is ≤ cutoff (inclusive boundary), excluding any
pair present in the exclusion table; the pair set, not its iteration order, is
the observable contract. -/
def specComputeNeighborList (n : Nat) (posq : List ℚ) (exclusions : List (Finset Nat))
    (boxSize : ℚ × ℚ × ℚ) (usePeriodic : Bool) (cutoff : ℚ) : List (Nat × Nat) :=
  (List.range n).flatMap (fun i =>
    ((List.range n).filter (fun j =>
      decide (i < j) && decide (j ∉ exclusions.getD i ∅) &&
        decide (pairDistSq posq boxSize usePeriodic i j ≤ cutoff * cutoff))).map (fun j => (i, j)))

/-- A concrete environment used to evaluate the embedding on concrete inputs:
the narrowing cast is the identity, the neighbor search is the spec-modelled
one, and the Ewald/PME derivations return fixed values (their formulas are
implementation-defined per the spec and never inspected by the kernel code). -/
def env₀ : Env where
  calcEwaldParameters := fun _ _ => (3, 7, 7, 7)
  calcPMEParameters := fun _ _ => (3, 16, 16, 16)
  dispersionTail := fun _ _ => 0
  computeNeighborList := specComputeNeighborList
  toFloat := id

/-! Concrete fixtures for counterexamples, code-bug evaluations and witnesses. -/

/-- A two-particle system (masses only; the kernel never reads them). -/
def sysTwo : System := ⟨[1, 1]⟩

/-- Claim C1's scenario: charges +1 and −1, no cutoff, no periodicity. -/
def forceC1 : NonbondedForce where
  particles := [⟨1, 1, 0⟩, ⟨-1, 1, 0⟩]
  exceptions := []
  nonbondedMethod := .NoCutoff
  cutoffDistance := 1
  useSwitchingFunction := false
  switchingDistance := 0
  reactionFieldDielectric := 1
  useDispersionCorrection := false

/-- Claim C1's context: the two particles at distance 1.0 along x. -/
def ctxC1 : Context := ⟨[(0, 0, 0), (1, 0, 0)], [(0, 0, 0), (0, 0, 0)], (2, 2, 2)⟩

/-- The kernel initialized for claim C1's scenario. -/
def stC1 : KernelState := initializeKernel env₀ KernelState.fresh sysTwo forceC1

/-- Claim C2's configuration: cutoff-periodic with cutoff 1. -/
def forceC2 : NonbondedForce where
  particles := [⟨1, 1, 0⟩, ⟨-1, 1, 0⟩]
  exceptions := []
  nonbondedMethod := .CutoffPeriodic
  cutoffDistance := 1
  useSwitchingFunction := false
  switchingDistance := 0
  reactionFieldDielectric := 1
  useDispersionCorrection := false

/-- Claim C2's context: periodic box with every edge 1, smaller than twice the
cutoff distance of `forceC2`. -/
def ctxC2 : Context := ⟨[(0, 0, 0), (1/4, 0, 0)], [(0, 0, 0), (0, 0, 0)], (1, 1, 1)⟩

/-- The kernel initialized for claim C2's scenario. -/
def stC2 : KernelState := initializeKernel env₀ KernelState.fresh sysTwo forceC2

/-- A configuration identical to `forceC1` except for an extra particle, for
claim C4's topology-change scenario. -/
def forceC4 : NonbondedForce where
  particles := [⟨1, 1, 0⟩, ⟨-1, 1, 0⟩, ⟨0, 1, 0⟩]
  exceptions := []
  nonbondedMethod := .NoCutoff
  cutoffDistance := 1
  useSwitchingFunction := false
  switchingDistance := 0
  reactionFieldDielectric := 1
  useDispersionCorrection := false

/-- A one-particle system for claim C3's counterexample. -/
def sysOne : System := ⟨[1]⟩

/-- Claim C3's counterexample configuration: the Ewald method. -/
def forceC3 : NonbondedForce where
  particles := [⟨0, 1, 0⟩]
  exceptions := []
  nonbondedMethod := .Ewald
  cutoffDistance := 1
  useSwitchingFunction := false
  switchingDistance := 0
  reactionFieldDielectric := 1
  useDispersionCorrection := false

/-- Claim C3's counterexample context: a particle far outside the unit box. -/
def ctxC3 : Context := ⟨[(10, 0, 0)], [(0, 0, 0)], (1, 1, 1)⟩

/-- The kernel initialized for claim C3's counterexample. -/
def stC3 : KernelState := initializeKernel env₀ KernelState.fresh sysOne forceC3

/-- Claim C7's counterexample configuration: a single exception pairing
particle 0 with itself (nothing in the source rejects such an exception). -/
def forceC7 : NonbondedForce where
  particles := [⟨0, 1, 0⟩]
  exceptions := [⟨0, 0, 1, 1, 0⟩]
  nonbondedMethod := .NoCutoff
  cutoffDistance := 1
  useSwitchingFunction := false
  switchingDistance := 0
  reactionFieldDielectric := 1
  useDispersionCorrection := false

/-- A well-formed two-particle configuration with one ordinary exception, used
as witness input for claim C7. -/
def forceW7 : NonbondedForce where
  particles := [⟨1, 1, 0⟩, ⟨-1, 1, 0⟩]
  exceptions := [⟨0, 1, 1, 1, 0⟩]
  nonbondedMethod := .NoCutoff
  cutoffDistance := 1
  useSwitchingFunction := false
  switchingDistance := 0
  reactionFieldDielectric := 1
  useDispersionCorrection := false

/-- A three-particle configuration with one scaled (1-4) exception and one
fully-zero exception, used as witness input for claim C6. -/
def forceW6 : NonbondedForce where
  particles := [⟨0, 1, 0⟩, ⟨0, 1, 0⟩, ⟨0, 1, 0⟩]
  exceptions := [⟨0, 1, 1, 1, 0⟩, ⟨1, 2, 0, 1, 0⟩]
  nonbondedMethod := .NoCutoff
  cutoffDistance := 1
  useSwitchingFunction := false
  switchingDistance := 0
  reactionFieldDielectric := 1
  useDispersionCorrection := false

/-! Helper lemmas about the exclusion table and the position-conversion loop. -/

theorem getD_set {α : Type} (l : List α) (p m : Nat) (a d : α) (hm : m < l.length) :
    (l.set p a).getD m d = if p = m then a else l.getD m d := by
  rcases eq_or_ne p m with rfl | h
  · rw [List.getD_eq_getElem _ _ (by simpa using hm)]
    simp [List.getElem_set, hm]
  · rw [List.getD_eq_getElem _ _ (by simpa using hm), List.getD_eq_getElem _ _ hm]
    simp [List.getElem_set, h]

theorem getD_set_ne {α : Type} (l : List α) (p m : Nat) (a d : α) (h : p ≠ m) :
    (l.set p a).getD m d = l.getD m d := by
  by_cases hm : m < l.length
  · rw [getD_set _ _ _ _ _ hm, if_neg h]
  · rw [List.getD_eq_default _ _ (by simp; omega), List.getD_eq_default _ _ (by omega)]

theorem length_insertExclusion (excl : List (Finset Nat)) (p q : Nat) :
    (insertExclusion excl p q).length = excl.length := by
  simp [insertExclusion]

theorem getD_insertExclusion (excl : List (Finset Nat)) (p q i : Nat) (hi : i < excl.length) :
    (insertExclusion excl p q).getD i ∅ =
      if p = i then insert q (excl.getD i ∅) else excl.getD i ∅ := by
  unfold insertExclusion
  rw [getD_set _ _ _ _ _ hi]
  rcases eq_or_ne p i with rfl | h
  · simp
  · simp [h]

theorem mem_exclStep (acc : List (Finset Nat)) (e : ExceptionParams) (i j : Nat)
    (hi : i < acc.length) :
    j ∈ (exclStep acc e).getD i ∅ ↔
      j ∈ acc.getD i ∅ ∨ (e.particle1 = i ∧ e.particle2 = j) ∨
        (e.particle2 = i ∧ e.particle1 = j) := by
  have hlen1 : i < (insertExclusion acc e.particle1 e.particle2).length := by
    rw [length_insertExclusion]; exact hi
  unfold exclStep
  rw [getD_insertExclusion _ _ _ _ hlen1, getD_insertExclusion _ _ _ _ hi]
  rcases eq_or_ne e.particle2 i with h2 | h2 <;> rcases eq_or_ne e.particle1 i with h1 | h1 <;>
    simp [h1, h2, Finset.mem_insert] <;> tauto

theorem length_exclStep (acc : List (Finset Nat)) (e : ExceptionParams) :
    (exclStep acc e).length = acc.length := by
  simp [exclStep, insertExclusion]

theorem length_foldl_exclStep (excs : List ExceptionParams) (acc : List (Finset Nat)) :
    (excs.foldl exclStep acc).length = acc.length := by
  induction excs generalizing acc with
  | nil => rfl
  | cons e t ih => rw [List.foldl_cons, ih, length_exclStep]

theorem mem_foldl_exclStep (excs : List ExceptionParams) (acc : List (Finset Nat)) (i j : Nat)
    (hi : i < acc.length) :
    j ∈ (excs.foldl exclStep acc).getD i ∅ ↔
      j ∈ acc.getD i ∅ ∨ ∃ e ∈ excs,
        (e.particle1 = i ∧ e.particle2 = j) ∨ (e.particle2 = i ∧ e.particle1 = j) := by
  induction excs generalizing acc with
  | nil => simp
  | cons e t ih =>
    rw [List.foldl_cons, ih _ (by rw [length_exclStep]; exact hi), mem_exclStep _ _ _ _ hi]
    simp only [List.exists_mem_cons_iff]
    exact or_assoc

theorem length_buildExclusions (n : Nat) (excs : List ExceptionParams) :
    (buildExclusions n excs).length = n := by
  rw [buildExclusions, length_foldl_exclStep, List.length_replicate]

theorem mem_buildExclusions (n : Nat) (excs : List ExceptionParams) (i j : Nat) (hi : i < n) :
    j ∈ (buildExclusions n excs).getD i ∅ ↔
      ∃ e ∈ excs, (e.particle1 = i ∧ e.particle2 = j) ∨ (e.particle2 = i ∧ e.particle1 = j) := by
  rw [buildExclusions, mem_foldl_exclStep _ _ _ _ (by simpa using hi)]
  simp

theorem map_getD_range {α : Type} (l : List α) (d : α) :
    (List.range l.length).map (fun i => l.getD i d) = l := by
  induction l with
  | nil => simp
  | cons a t ih =>
    simp only [List.length_cons, List.range_succ_eq_map, List.map_cons, List.map_map]
    exact congrArg (a :: ·) ih

theorem length_filter_range_getD {α : Type} (l : List α) (d : α) (p : α → Bool) :
    ((List.range l.length).filter (fun i => p (l.getD i d))).length = (l.filter p).length := by
  calc ((List.range l.length).filter (fun i => p (l.getD i d))).length
      = (((List.range l.length).filter (p ∘ fun i => l.getD i d)).map
          (fun i => l.getD i d)).length := by rw [List.length_map]; rfl
    _ = (((List.range l.length).map (fun i => l.getD i d)).filter p).length := by
        rw [List.filter_map]
    _ = (l.filter p).length := by rw [map_getD_range]

theorem positionLoop_succ (f : Nat → ℚ × ℚ × ℚ) (n : Nat) (pq : List ℚ) :
    positionLoop f (n + 1) pq =
      (((positionLoop f n pq).set (4 * n) (f n).1).set (4 * n + 1) (f n).2.1).set
        (4 * n + 2) (f n).2.2 := by
  simp [positionLoop, List.range_succ, List.foldl_append]

theorem length_positionLoop (f : Nat → ℚ × ℚ × ℚ) (n : Nat) (pq : List ℚ) :
    (positionLoop f n pq).length = pq.length := by
  induction n with
  | zero => rfl
  | succ n ih => rw [positionLoop_succ]; simp [ih]

theorem positionLoop_getD_untouched (f : Nat → ℚ × ℚ × ℚ) (pq : List ℚ) (d : ℚ) :
    ∀ n m, m % 4 = 3 ∨ 4 * n ≤ m → (positionLoop f n pq).getD m d = pq.getD m d := by
  intro n
  induction n with
  | zero => intro m _; rfl
  | succ n ih =>
    intro m hm
    rw [positionLoop_succ, getD_set_ne _ _ _ _ _ (by omega), getD_set_ne _ _ _ _ _ (by omega),
      getD_set_ne _ _ _ _ _ (by omega)]
    exact ih m (by omega)

theorem positionLoop_getD (f : Nat → ℚ × ℚ × ℚ) (pq : List ℚ) (d : ℚ) :
    ∀ n, 4 * n ≤ pq.length → ∀ i, i < n →
      (positionLoop f n pq).getD (4 * i) d = (f i).1 ∧
      (positionLoop f n pq).getD (4 * i + 1) d = (f i).2.1 ∧
      (positionLoop f n pq).getD (4 * i + 2) d = (f i).2.2 := by
  intro n
  induction n with
  | zero => intro _ i hi; omega
  | succ n ih =>
    intro hlen i hi
    rcases Nat.lt_succ_iff_lt_or_eq.mp hi with h | rfl
    · obtain ⟨h0, h1, h2⟩ := ih (by omega) i h
      rw [positionLoop_succ]
      refine ⟨?_, ?_, ?_⟩
      · rw [getD_set_ne _ _ _ _ _ (by omega), getD_set_ne _ _ _ _ _ (by omega),
          getD_set_ne _ _ _ _ _ (by omega)]
        exact h0
      · rw [getD_set_ne _ _ _ _ _ (by omega), getD_set_ne _ _ _ _ _ (by omega),
          getD_set_ne _ _ _ _ _ (by omega)]
        exact h1
      · rw [getD_set_ne _ _ _ _ _ (by omega), getD_set_ne _ _ _ _ _ (by omega),
          getD_set_ne _ _ _ _ _ (by omega)]
        exact h2
    · rw [positionLoop_succ]
      refine ⟨?_, ?_, ?_⟩
      · rw [getD_set_ne _ _ _ _ _ (by omega), getD_set_ne _ _ _ _ _ (by omega),
          getD_set _ _ _ _ _ (by rw [length_positionLoop]; omega), if_pos rfl]
      · rw [getD_set_ne _ _ _ _ _ (by omega),
          getD_set _ _ _ _ _ (by simp only [List.length_set, length_positionLoop]; omega),
          if_pos rfl]
      · rw [getD_set _ _ _ _ _
          (by simp only [List.length_set, length_positionLoop]; omega), if_pos rfl]

/-! Claim theorems. -/

/-- Claim C1: the spec demands that for two particles at distance 1 with
charges +1 and −1, no cutoff and no periodicity, `execute` with
`includeEnergy` set return the Coulomb constant times −1.  In the source all
pair evaluation is commented out and `execute` returns `0.0` regardless of
`includeEnergy`, leaving the force buffer untouched; this theorem evaluates
the code at exactly that scenario. -/
theorem claim1_two_particle_execute_returns_zero :
    (execute env₀ stC1 ctxC1 true true true true).energy = 0 ∧
    (execute env₀ stC1 ctxC1 true false true true).energy = 0 ∧
    (execute env₀ stC1 ctxC1 true true true true).forces = ctxC1.forces :=
  ⟨rfl, rfl, rfl⟩

/-- Claim C2: the spec demands that a periodic kernel whose box edge is below
twice the cutoff fail with `PeriodicBoxTooSmall` before the neighbor search.
The box-size check is commented out in the source (lines 163–169): at such an
input `execute` proceeds normally, invokes the neighbor search (the list even
contains the in-range pair), and returns `0.0`. -/
theorem claim2_small_box_execute_succeeds :
    ctxC2.boxSize.1 < 2 * stC2.nonbondedCutoff ∧
    stC2.nonbondedMethod = NonbondedMethod.CutoffPeriodic ∧
    (execute env₀ stC2 ctxC2 true true true true).energy = 0 ∧
    (execute env₀ stC2 ctxC2 true true true true).forces = ctxC2.forces ∧
    (execute env₀ stC2 ctxC2 true true true true).kernel.neighborList = [(0, 1)] := by
  refine ⟨?_, rfl, rfl, rfl, ?_⟩
  · norm_num [ctxC2, stC2, initializeKernel, forceC2]
  · norm_num [execute, stC2, ctxC2, initializeKernel, forceC2, env₀, sysTwo,
      specComputeNeighborList, pairDistSq, minImageDelta, convertPositions, positionLoop,
      wrapMinImage, setCharges, resizePosq, buildExclusions, exclStep, nb14Indices,
      List.range_succ, List.foldl_append, insertExclusion, NonbondedForce.numParticles,
      KernelState.fresh, List.getD, NonbondedMethod.isPeriodic, List.filter, List.flatMap]

/-- Claim C3 counterexample: for the Ewald method (a periodic method per the
claim) the position-conversion loop takes the non-wrapping branch — the live
code wraps only for `CutoffPeriodic`.  A particle at x = 10 in a unit box
keeps coordinate 10 in `posq`, while the claimed minimum-image wrap would give
0. -/
theorem claim3_ewald_positions_not_wrapped :
    stC3.nonbondedMethod = NonbondedMethod.Ewald ∧
    (ctxC3.positions.getD 0 default).1 = 10 ∧
    ctxC3.boxSize.1 = 1 ∧
    (execute env₀ stC3 ctxC3 true true true true).kernel.posq.getD 0 0 = 10 ∧
    env₀.toFloat (wrapMinImage 10 1) = 0 ∧
    (10 : ℚ) ≠ 0 := by
  refine ⟨rfl, rfl, rfl, by decide, ?_, by decide⟩
  norm_num [env₀, wrapMinImage]

/-- Claim C4: the spec demands that `copyParametersToContext` fail with
`TopologyChanged` when the particle count differs from initialization.  The
whole body, checks included, is commented out in the source: with a
configuration holding one extra particle the call succeeds and is a no-op. -/
theorem claim4_update_with_changed_topology_succeeds :
    forceC4.numParticles ≠ stC1.numParticles ∧
    copyParametersToContext stC1 ctxC1 forceC4 = stC1 :=
  ⟨by decide, rfl⟩

/-- Claim C5: after `initialize` the stored dispersion-correction coefficient
is zero when the flag is disabled (the source's `else` branch) or the method
is non-periodic (the spec-modelled `calcDispersionCorrection` returns zero
there), and it is the analytic Lennard-Jones tail coefficient exactly when the
flag is enabled and the method is periodic. -/
theorem claim5_dispersion_coefficient (env : Env) (pre : KernelState) (sys : System)
    (force : NonbondedForce) :
    (initializeKernel env pre sys force).dispersionCoefficient =
      if force.useDispersionCorrection && force.nonbondedMethod.isPeriodic then
        env.dispersionTail sys force
      else 0 := by
  simp only [initializeKernel, calcDispersionCorrection]
  cases force.useDispersionCorrection <;> cases h : force.nonbondedMethod.isPeriodic <;> simp [h]

/-- Claim C8: running `copyParametersToContext` (with any configuration, in
particular the one used at initialization) between `initialize` and `execute`
changes nothing: the subsequent `execute` result — energy, kernel state and
force buffer — is identical to the one without the update, because the
update's body is entirely commented out. -/
theorem claim8_update_then_execute_roundtrip (env : Env) (pre : KernelState) (sys : System)
    (force : NonbondedForce) (ctx ctx2 : Context) (f1 f2 f3 f4 : Bool) :
    execute env (copyParametersToContext (initializeKernel env pre sys force) ctx2 force)
        ctx f1 f2 f3 f4 =
      execute env (initializeKernel env pre sys force) ctx f1 f2 f3 f4 :=
  rfl

/-- Claim C9: for every kernel state, context and flag combination, `execute`
returns exactly 0, leaves the caller's force buffer untouched, and its only
state effects are rebuilding the reduced-precision position components of
`posq` and the neighbor list. -/
theorem claim9_execute_returns_zero_touches_nothing (env : Env) (st : KernelState)
    (ctx : Context) (f1 f2 f3 f4 : Bool) :
    (execute env st ctx f1 f2 f3 f4).energy = 0 ∧
    (execute env st ctx f1 f2 f3 f4).forces = ctx.forces ∧
    (execute env st ctx f1 f2 f3 f4).kernel =
      { st with
        posq :=
          convertPositions env st.numParticles st.nonbondedMethod ctx.positions ctx.boxSize st.posq
        neighborList :=
          env.computeNeighborList st.numParticles
            (convertPositions env st.numParticles st.nonbondedMethod ctx.positions ctx.boxSize
              st.posq)
            st.exclusions
            (env.toFloat ctx.boxSize.1, env.toFloat ctx.boxSize.2.1, env.toFloat ctx.boxSize.2.2)
            st.nonbondedMethod.isPeriodic st.nonbondedCutoff } :=
  ⟨rfl, rfl, rfl⟩

/-- Claim C10: `copyParametersToContext` is the identity on the kernel state —
every field (charges in `posq`, exclusions, `num14`, method, cutoff,
switching, Ewald/PME parameters, dispersion coefficient) is unchanged — and it
is a total function, so it never raises an error, for every input
configuration. -/
theorem claim10_copy_parameters_is_noop (st : KernelState) (ctx : Context)
    (force : NonbondedForce) :
    copyParametersToContext st ctx force = st :=
  rfl

/-- Claim C3 (amended): `execute` converts every particle position to reduced
precision applying the minimum-image wrap `x' = x - floor(x/L + 0.5) * L` per
axis only when the method is cutoff-periodic; for every other method —
including the periodic Ewald and PME methods — the positions are converted
without wrapping.  The charge slot of each particle is untouched, and the
neighbor search is invoked afterwards on the converted positions (with the
periodicity flag set for all three periodic methods). -/
theorem claim3_wrap_only_for_cutoff_periodic (env : Env) (st : KernelState) (ctx : Context)
    (f1 f2 f3 f4 : Bool) (hlen : 4 * st.numParticles ≤ st.posq.length) (i : Nat)
    (hi : i < st.numParticles) :
    ((execute env st ctx f1 f2 f3 f4).kernel.posq.getD (4 * i) 0 =
      if st.nonbondedMethod = NonbondedMethod.CutoffPeriodic then
        env.toFloat (wrapMinImage (ctx.positions.getD i default).1 ctx.boxSize.1)
      else env.toFloat (ctx.positions.getD i default).1) ∧
    ((execute env st ctx f1 f2 f3 f4).kernel.posq.getD (4 * i + 1) 0 =
      if st.nonbondedMethod = NonbondedMethod.CutoffPeriodic then
        env.toFloat (wrapMinImage (ctx.positions.getD i default).2.1 ctx.boxSize.2.1)
      else env.toFloat (ctx.positions.getD i default).2.1) ∧
    ((execute env st ctx f1 f2 f3 f4).kernel.posq.getD (4 * i + 2) 0 =
      if st.nonbondedMethod = NonbondedMethod.CutoffPeriodic then
        env.toFloat (wrapMinImage (ctx.positions.getD i default).2.2 ctx.boxSize.2.2)
      else env.toFloat (ctx.positions.getD i default).2.2) ∧
    ((execute env st ctx f1 f2 f3 f4).kernel.posq.getD (4 * i + 3) 0 =
      st.posq.getD (4 * i + 3) 0) ∧
    ((execute env st ctx f1 f2 f3 f4).kernel.neighborList =
      env.computeNeighborList st.numParticles (execute env st ctx f1 f2 f3 f4).kernel.posq
        st.exclusions
        (env.toFloat ctx.boxSize.1, env.toFloat ctx.boxSize.2.1, env.toFloat ctx.boxSize.2.2)
        st.nonbondedMethod.isPeriodic st.nonbondedCutoff) := by
  have hposq : (execute env st ctx f1 f2 f3 f4).kernel.posq =
      convertPositions env st.numParticles st.nonbondedMethod ctx.positions ctx.boxSize
        st.posq := rfl
  refine ⟨?_, ?_, ?_, ?_, rfl⟩ <;> rw [hposq, convertPositions] <;>
    by_cases hp : st.nonbondedMethod = NonbondedMethod.CutoffPeriodic
  · rw [if_pos hp, if_pos hp]
    exact (positionLoop_getD _ st.posq 0 st.numParticles hlen i hi).1
  · rw [if_neg hp, if_neg hp]
    exact (positionLoop_getD _ st.posq 0 st.numParticles hlen i hi).1
  · rw [if_pos hp, if_pos hp]
    exact (positionLoop_getD _ st.posq 0 st.numParticles hlen i hi).2.1
  · rw [if_neg hp, if_neg hp]
    exact (positionLoop_getD _ st.posq 0 st.numParticles hlen i hi).2.1
  · rw [if_pos hp, if_pos hp]
    exact (positionLoop_getD _ st.posq 0 st.numParticles hlen i hi).2.2
  · rw [if_neg hp, if_neg hp]
    exact (positionLoop_getD _ st.posq 0 st.numParticles hlen i hi).2.2
  · rw [if_pos hp]
    exact positionLoop_getD_untouched _ st.posq 0 st.numParticles (4 * i + 3) (by omega)
  · rw [if_neg hp]
    exact positionLoop_getD_untouched _ st.posq 0 st.numParticles (4 * i + 3) (by omega)

/-- Witness for the amended claim C3: the hypotheses hold at the concrete
Ewald kernel `stC3` with particle 0, and the theorem then evaluates there. -/
theorem claim3_wrap_only_for_cutoff_periodic_witness :
    (4 * stC3.numParticles ≤ stC3.posq.length ∧ 0 < stC3.numParticles) ∧
    ((execute env₀ stC3 ctxC3 true true true true).kernel.posq.getD (4 * 0) 0 =
      if stC3.nonbondedMethod = NonbondedMethod.CutoffPeriodic then
        env₀.toFloat (wrapMinImage (ctxC3.positions.getD 0 default).1 ctxC3.boxSize.1)
      else env₀.toFloat (ctxC3.positions.getD 0 default).1) ∧
    ((execute env₀ stC3 ctxC3 true true true true).kernel.posq.getD (4 * 0 + 1) 0 =
      if stC3.nonbondedMethod = NonbondedMethod.CutoffPeriodic then
        env₀.toFloat (wrapMinImage (ctxC3.positions.getD 0 default).2.1 ctxC3.boxSize.2.1)
      else env₀.toFloat (ctxC3.positions.getD 0 default).2.1) ∧
    ((execute env₀ stC3 ctxC3 true true true true).kernel.posq.getD (4 * 0 + 2) 0 =
      if stC3.nonbondedMethod = NonbondedMethod.CutoffPeriodic then
        env₀.toFloat (wrapMinImage (ctxC3.positions.getD 0 default).2.2 ctxC3.boxSize.2.2)
      else env₀.toFloat (ctxC3.positions.getD 0 default).2.2) ∧
    ((execute env₀ stC3 ctxC3 true true true true).kernel.posq.getD (4 * 0 + 3) 0 =
      stC3.posq.getD (4 * 0 + 3) 0) ∧
    ((execute env₀ stC3 ctxC3 true true true true).kernel.neighborList =
      env₀.computeNeighborList stC3.numParticles
        (execute env₀ stC3 ctxC3 true true true true).kernel.posq stC3.exclusions
        (env₀.toFloat ctxC3.boxSize.1, env₀.toFloat ctxC3.boxSize.2.1,
          env₀.toFloat ctxC3.boxSize.2.2)
        stC3.nonbondedMethod.isPeriodic stC3.nonbondedCutoff) :=
  ⟨⟨by decide, by decide⟩,
    claim3_wrap_only_for_cutoff_periodic env₀ stC3 ctxC3 true true true true (by decide) 0
      (by decide)⟩

/-- Claim C6: an exception index is in the scaled 1-4 list `nb14s` iff its
scaled charge product or well-depth is nonzero; `num14` is the number of such
exceptions; and every configured exception, dropped from the 1-4 list or not,
still contributes its partner to the exclusion set. -/
theorem claim6_nb14_partition (env : Env) (pre : KernelState) (sys : System)
    (force : NonbondedForce) :
    (∀ i, i < force.exceptions.length →
      (i ∈ nb14Indices force.exceptions ↔
        (force.exceptions.getD i default).chargeProd ≠ 0 ∨
          (force.exceptions.getD i default).epsilon ≠ 0)) ∧
    (initializeKernel env pre sys force).num14 =
      (force.exceptions.filter fun e => decide (e.chargeProd ≠ 0 ∨ e.epsilon ≠ 0)).length ∧
    (∀ e ∈ force.exceptions, e.particle1 < force.numParticles →
      e.particle2 ∈ (initializeKernel env pre sys force).exclusions.getD e.particle1 ∅) := by
  refine ⟨?_, ?_, ?_⟩
  · intro i hi
    simp [nb14Indices, List.mem_filter, List.mem_range, hi]
  · show (nb14Indices force.exceptions).length = _
    rw [nb14Indices]
    exact length_filter_range_getD force.exceptions default
      (fun e => decide (e.chargeProd ≠ 0 ∨ e.epsilon ≠ 0))
  · intro e he h1
    show e.particle2 ∈ (buildExclusions force.numParticles force.exceptions).getD e.particle1 ∅
    exact (mem_buildExclusions _ _ _ _ h1).mpr ⟨e, he, Or.inl ⟨rfl, rfl⟩⟩

/-- Witness for claim C6: in `forceW6`, exception 0 (nonzero charge product)
is a 1-4 pair, `num14` counts exactly the nonzero exceptions, and the
all-zero exception 1 still put particle 2 into particle 1's exclusion set. -/
theorem claim6_nb14_partition_witness :
    (0 < forceW6.exceptions.length) ∧
    (0 ∈ nb14Indices forceW6.exceptions ↔
      (forceW6.exceptions.getD 0 default).chargeProd ≠ 0 ∨
        (forceW6.exceptions.getD 0 default).epsilon ≠ 0) ∧
    (initializeKernel env₀ KernelState.fresh sysTwo forceW6).num14 =
      (forceW6.exceptions.filter fun e => decide (e.chargeProd ≠ 0 ∨ e.epsilon ≠ 0)).length ∧
    ((⟨1, 2, 0, 1, 0⟩ : ExceptionParams) ∈ forceW6.exceptions ∧
      (2 : Nat) ∈ (initializeKernel env₀ KernelState.fresh sysTwo forceW6).exclusions.getD 1 ∅) := by
  have h := claim6_nb14_partition env₀ KernelState.fresh sysTwo forceW6
  exact ⟨by decide, h.1 0 (by decide), h.2.1,
    by decide, h.2.2 ⟨1, 2, 0, 1, 0⟩ (by decide) (by decide)⟩

/-- Claim C7 counterexample: nothing in `initialize` rejects an exception that
pairs a particle with itself; with the single exception (0,0) of `forceC7`,
particle 0 ends up in its own exclusion set, violating the claimed
no-self-exclusion invariant. -/
theorem claim7_self_exclusion_counterexample :
    (0, 0) = ((forceC7.exceptions.getD 0 default).particle1,
        (forceC7.exceptions.getD 0 default).particle2) ∧
    0 ∈ (initializeKernel env₀ KernelState.fresh sysOne forceC7).exclusions.getD 0 ∅ := by
  constructor
  · rfl
  · show 0 ∈ (buildExclusions forceC7.numParticles forceC7.exceptions).getD 0 ∅
    exact (mem_buildExclusions _ _ _ _ (by decide)).mpr
      ⟨⟨0, 0, 1, 1, 0⟩, by decide, Or.inl ⟨rfl, rfl⟩⟩

/-- Claim C7 (amended): for every configuration whose exception indices are
within the particle count, the exclusion table built by `initialize` is
symmetric — each exception puts each endpoint in the other's exclusion set —
and, provided no exception pairs a particle with itself, no particle appears
in its own exclusion set. -/
theorem claim7_exclusions_symmetric_no_self (env : Env) (pre : KernelState) (sys : System)
    (force : NonbondedForce)
    (hrange : ∀ e ∈ force.exceptions,
      e.particle1 < force.numParticles ∧ e.particle2 < force.numParticles) :
    (∀ e ∈ force.exceptions,
      e.particle2 ∈ (initializeKernel env pre sys force).exclusions.getD e.particle1 ∅ ∧
      e.particle1 ∈ (initializeKernel env pre sys force).exclusions.getD e.particle2 ∅) ∧
    ((∀ e ∈ force.exceptions, e.particle1 ≠ e.particle2) →
      ∀ i, i ∉ (initializeKernel env pre sys force).exclusions.getD i ∅) := by
  have hexcl : (initializeKernel env pre sys force).exclusions =
      buildExclusions force.numParticles force.exceptions := rfl
  rw [hexcl]
  constructor
  · intro e he
    obtain ⟨h1, h2⟩ := hrange e he
    exact ⟨(mem_buildExclusions _ _ _ _ h1).mpr ⟨e, he, Or.inl ⟨rfl, rfl⟩⟩,
      (mem_buildExclusions _ _ _ _ h2).mpr ⟨e, he, Or.inr ⟨rfl, rfl⟩⟩⟩
  · intro hne i hmem
    by_cases hi : i < force.numParticles
    · obtain ⟨e, he, h⟩ := (mem_buildExclusions _ _ _ _ hi).mp hmem
      rcases h with ⟨ha, hb⟩ | ⟨ha, hb⟩
      · exact hne e he (ha.trans hb.symm)
      · exact hne e he (hb.trans ha.symm)
    · rw [List.getD_eq_default _ _ (by rw [length_buildExclusions]; omega)] at hmem
      exact absurd hmem (Finset.not_mem_empty i)

/-- Witness for the amended claim C7: the well-formed configuration `forceW7`
satisfies the range hypothesis, and the symmetry and no-self-exclusion
conclusions then hold for it. -/
theorem claim7_exclusions_symmetric_no_self_witness :
    (∀ e ∈ forceW7.exceptions,
      e.particle1 < forceW7.numParticles ∧ e.particle2 < forceW7.numParticles) ∧
    ((∀ e ∈ forceW7.exceptions,
      e.particle2 ∈
        (initializeKernel env₀ KernelState.fresh sysTwo forceW7).exclusions.getD e.particle1 ∅ ∧
      e.particle1 ∈
        (initializeKernel env₀ KernelState.fresh sysTwo forceW7).exclusions.getD e.particle2 ∅) ∧
    ((∀ e ∈ forceW7.exceptions, e.particle1 ≠ e.particle2) →
      ∀ i, i ∉ (initializeKernel env₀ KernelState.fresh sysTwo forceW7).exclusions.getD i ∅)) :=
  ⟨by decide,
    claim7_exclusions_symmetric_no_self env₀ KernelState.fresh sysTwo forceW7 (by decide)⟩

end CpuNonbonded
